import Mathlib

/-!
Shallow embedding of the jsline-api client core (src/lib/clients.js and the
model classes of src/unnamed/part_000) together with the JavaScript runtime
fragments the code relies on: strict equality, truthiness, ToNumber
coercion, Array.prototype.indexOf and the ES2019 stable sort with a
user-supplied comparator.  Promise continuations that the source never
awaits are modelled explicitly as deferred steps, because the synchronous
code observably runs before them.
-/

set_option maxRecDepth 4000

namespace JslineApi

/-- A JavaScript runtime value, as far as the embedded code inspects one:
strings, numbers (`none` standing for NaN), object references identified by
a tag, class or function values identified by their declared name, and
undefined. -/
inductive JsVal where
  | undef
  | str (s : String)
  | num (n : Option Int)
  | obj (tag : Nat)
  | fn (name : String)
deriving DecidableEq, Repr

/-- JavaScript strict equality: values of different runtime types are never
equal, NaN is equal to nothing, strings compare by content, objects and
functions by reference. -/
def jsStrictEq : JsVal → JsVal → Bool
  | JsVal.str a, JsVal.str b => a == b
  | JsVal.num (some a), JsVal.num (some b) => a == b
  | JsVal.obj a, JsVal.obj b => a == b
  | JsVal.fn a, JsVal.fn b => a == b
  | JsVal.undef, JsVal.undef => true
  | _, _ => false

/-- JavaScript truthiness of a field that holds either a string or null:
null and the empty string are falsy. -/
def jsTruthyStrOpt : Option String → Bool
  | none => false
  | some s => s != ""

/-- Numeric value of a decimal digit character, and `none` for every other
character. -/
def digitValue (c : Char) : Option Nat :=
  if c == '0' then some 0
  else if c == '1' then some 1
  else if c == '2' then some 2
  else if c == '3' then some 3
  else if c == '4' then some 4
  else if c == '5' then some 5
  else if c == '6' then some 6
  else if c == '7' then some 7
  else if c == '8' then some 8
  else if c == '9' then some 9
  else none

/-- Decimal reading of a character list; any non-digit yields `none`. -/
def digitsToNat : List Char → Nat → Option Nat
  | [], acc => some acc
  | c :: rest, acc =>
    match digitValue c with
    | some d => digitsToNat rest (acc * 10 + d)
    | none => none

/-- The fragment of JavaScript ToNumber exercised on id strings: the empty
string converts to 0, a string of decimal digits with an optional leading
minus converts to the corresponding integer, and any other string converts
to NaN (`none`).  (Surrounding whitespace, fractions and exponents never
occur in the ids at issue and are not modelled.) -/
def jsToNumber (s : String) : Option Int :=
  match s.toList with
  | [] => some 0
  | c :: rest =>
    if c == '-' then
      match rest with
      | [] => none
      | d :: ds => (digitsToNat (d :: ds) 0).map (fun n => -(n : Int))
    else (digitsToNat (c :: rest) 0).map (fun n => (n : Int))

/-- JavaScript subtraction after ToNumber: NaN propagates. -/
def jsSubNum : Option Int → Option Int → Option Int
  | some a, some b => some (a - b)
  | _, _ => none

/-- The comparator `(a, b) => a.id - b.id` used by the sort calls, seen
through SortCompare: a NaN comparator result is treated as plus zero. -/
def idDiffCompare (a b : String) : Int :=
  match jsSubNum (jsToNumber a) (jsToNumber b) with
  | some v => v
  | none => 0

/-- Stable insertion: `x`, originally leftmost, is placed before the first
element it does not compare strictly greater than. -/
def insertStableBy (cmp : α → α → Int) (x : α) : List α → List α
  | [] => [x]
  | y :: ys => if cmp x y ≤ 0 then x :: y :: ys else y :: insertStableBy cmp x ys

/-- ES2019 Array.prototype.sort is stable, and for a consistent comparator
the stable sorted result is unique, so stable insertion sort models it. -/
def jsSortBy (cmp : α → α → Int) : List α → List α
  | [] => []
  | x :: xs => insertStableBy cmp x (jsSortBy cmp xs)

/-- ToNumber of an array used as a number, as happens when the source uses
an array as a loop bound: ToPrimitive joins the elements into a string, so
a non-empty array of objects is NaN, while the empty array converts via the
empty string to 0. -/
def jsArrayToNum (l : List α) : Option Int :=
  if l.isEmpty then some 0 else none

/-- The loop guard `i < len` where `len` holds an array of objects rather
than its length: any comparison against NaN is false. -/
def jsLtNumArr (i : Nat) (l : List α) : Bool :=
  match jsArrayToNum l with
  | some v => decide ((i : Int) < v)
  | none => false

/-- Index scan for Array.prototype.indexOf. -/
def jsIndexOfAux (v : JsVal) : Nat → List JsVal → Int
  | _, [] => -1
  | i, x :: rest => if jsStrictEq x v then (i : Int) else jsIndexOfAux v (i + 1) rest

/-- JavaScript Array.prototype.indexOf: index of the first element strictly
equal to the argument, and -1 when there is none. -/
def jsIndexOf (l : List JsVal) (v : JsVal) : Int :=
  jsIndexOfAux v 0 l

/-! Raw records returned by the remote gateway, mirroring the thrift
payload fields the constructors read. -/

structure RawContact where
  mid : String
  displayName : String
  statusMessage : String := ""
  picturePath : String := ""
deriving DecidableEq, Repr, Inhabited

structure RawGroup where
  id : String
  name : String
  creator : Option RawContact := none
  invitee : Option (List RawContact) := none
  members : Option (List RawContact) := none
deriving DecidableEq, Repr, Inhabited

structure RawRoom where
  mid : String
  contacts : Option (List RawContact) := none
deriving DecidableEq, Repr, Inhabited

structure RawMessage where
  id : String := ""
  text : String := ""
  hasContent : Bool := false
  contentType : Nat := 0
  contentPreview : String := ""
  contentMetadata : String := ""
  from_ : String := ""
  «to» : String := ""
  toType : Nat := 0
  createdTime : Nat := 0
deriving DecidableEq, Repr, Inhabited

/-- Modelled from the spec: the external config module (src has no
`./config`) supplies LINE_OS_URL, used only to build icon URLs; its
concrete value is irrelevant to every claim. -/
def LINE_OS_URL : String := "os.line.naver.jp"

/-! The entity model of part_000. -/

structure LineContact where
  id : String
  name : String
  iconPath : String := ""
  statusMessage : String := ""
deriving DecidableEq, Repr, Inhabited

/-- The LineContact constructor: copies mid, displayName and statusMessage
and derives the icon URL from the config host and the picture path. -/
def LineContact.ofRaw (c : RawContact) : LineContact :=
  { id := c.mid
    name := c.displayName
    iconPath := "http://" ++ LINE_OS_URL ++ c.picturePath ++ "/preview"
    statusMessage := c.statusMessage }

structure LineGroup where
  id : String
  name : String
  creator : Option LineContact := none
  invitee : List LineContact := []
  members : List LineContact := []
  isJoined : Bool := true
deriving DecidableEq, Repr, Inhabited

/-- The LineGroup constructor on a non-null group record: a null creator
maps to null, null invitee or member lists map to empty lists, each entry
is wrapped as a LineContact, and the joined flag is taken from the caller.
(The constructor also has a branch for a null group record, which no
modelled code path produces.) -/
def LineGroup.ofRaw (isJoined : Bool) (g : RawGroup) : LineGroup :=
  { id := g.id
    name := g.name
    creator := g.creator.map LineContact.ofRaw
    invitee := (g.invitee.getD []).map LineContact.ofRaw
    members := (g.members.getD []).map LineContact.ofRaw
    isJoined := isJoined }

structure LineRoom where
  id : String
  contacts : List LineContact := []
deriving DecidableEq, Repr, Inhabited

/-- The LineRoom constructor: the id comes from the mid field and a null
contact list maps to the empty list. -/
def LineRoom.ofRaw (r : RawRoom) : LineRoom :=
  { id := r.mid, contacts := (r.contacts.getD []).map LineContact.ofRaw }

/-- Tagged view of the values `getContactOrRoomOrGroupById` can return. -/
inductive Entity where
  | contact (c : LineContact)
  | room (r : LineRoom)
  | group (g : LineGroup)
deriving DecidableEq, Repr

/-- Value held by the untyped `sender` and `receiver` locals of the poll
cycle: undefined, a resolved entity, or a bare id string (the value the
dead fallback branch would assign). -/
inductive SRVal where
  | undef
  | ent (e : Entity)
  | str (s : String)
deriving DecidableEq, Repr

def SRVal.ofOption : Option Entity → SRVal
  | none => SRVal.undef
  | some e => SRVal.ent e

/-- JavaScript truthiness of a sender or receiver local. -/
def SRVal.truthy : SRVal → Bool
  | SRVal.undef => false
  | SRVal.ent _ => true
  | SRVal.str s => s != ""

/-- JavaScript typeof of a sender or receiver local: the resolver returns
an object or undefined, and the buggy fallback assignment would store a
string. -/
def SRVal.jsTypeof : SRVal → String
  | SRVal.undef => "undefined"
  | SRVal.ent _ => "object"
  | SRVal.str _ => "string"

/-- The operation kinds of the thrift OpType enumeration that the
dispatcher distinguishes. -/
inductive OpType where
  | END_OF_OPERATION
  | SEND_MESSAGE
  | RECEIVE_MESSAGE
  | other (n : Nat)
deriving DecidableEq, Repr, Inhabited

/-- The MIDType enumeration values the code distinguishes. -/
inductive MIDType where
  | USER
  | ROOM
  | GROUP
  | other (n : Nat)
deriving DecidableEq, Repr, Inhabited

structure Operation where
  type : OpType
  revision : Nat
  message : RawMessage
deriving DecidableEq, Repr, Inhabited

/-- A failure reported by the remote gateway: either a thrift
TalkException carrying a numeric code and reason, or a plain error with a
message. -/
inductive RemoteError where
  | talk (code : Nat) (reason : String)
  | js (msg : String)
deriving DecidableEq, Repr

/-- The message a remote failure rejects with. -/
def remoteMsg : RemoteError → String
  | RemoteError.talk _ reason => reason
  | RemoteError.js msg => msg

/-- The client state: auth material, the revision cursor, the profile and
the three directory stores. -/
structure ClientState where
  authToken : Option String
  certificate : Option String := none
  revision : Nat := 0
  profile : Option LineContact := none
  contacts : List LineContact := []
  groups : List LineGroup := []
  rooms : List LineRoom := []
deriving DecidableEq, Repr

/-- `_checkAuth()` is `!!this.authToken`. -/
def ClientState._checkAuth (s : ClientState) : Bool :=
  jsTruthyStrOpt s.authToken

/-- Linear scan of the contact store comparing ids with strict equality. -/
def getContactByIdAux (idv : JsVal) : List LineContact → Option LineContact
  | [] => none
  | c :: rest => if jsStrictEq (JsVal.str c.id) idv then some c else getContactByIdAux idv rest

/-- `getContactById`: first store entry whose id is strictly equal to the
argument, otherwise undefined. -/
def ClientState.getContactById (s : ClientState) (idv : JsVal) : Option LineContact :=
  getContactByIdAux idv s.contacts

/-- Linear scan of the room store comparing ids with strict equality. -/
def getRoomByIdAux (idv : JsVal) : List LineRoom → Option LineRoom
  | [] => none
  | r :: rest => if jsStrictEq (JsVal.str r.id) idv then some r else getRoomByIdAux idv rest

/-- `getRoomById`: first store entry whose id is strictly equal to the
argument, otherwise undefined. -/
def ClientState.getRoomById (s : ClientState) (idv : JsVal) : Option LineRoom :=
  getRoomByIdAux idv s.rooms

/-- Linear scan of the group store comparing ids with strict equality. -/
def getGroupByIdAux (idv : JsVal) : List LineGroup → Option LineGroup
  | [] => none
  | g :: rest => if jsStrictEq (JsVal.str g.id) idv then some g else getGroupByIdAux idv rest

/-- `getGroupById`: first store entry whose id is strictly equal to the
argument, otherwise undefined. -/
def ClientState.getGroupById (s : ClientState) (idv : JsVal) : Option LineGroup :=
  getGroupByIdAux idv s.groups

/-- `getContactOrRoomOrGroupById`: contact lookup, else room lookup, else
group lookup (JavaScript or-chaining on undefined). -/
def ClientState.getContactOrRoomOrGroupById (s : ClientState) (idv : JsVal) : Option Entity :=
  match s.getContactById idv with
  | some c => some (Entity.contact c)
  | none =>
    match s.getRoomById idv with
    | some r => some (Entity.room r)
    | none =>
      match s.getGroupById idv with
      | some g => some (Entity.group g)
      | none => none

/-- The runtime values stored in a member array: LineContact objects,
tagged by position for reference identity. -/
def contactObjVals (l : List LineContact) : List JsVal :=
  (List.range l.length).map JsVal.obj

/-- `LineGroup._containId(id)`: `Array.isArray(this.members)` (true, the
constructor always assigns an array) and `this.members.indexOf(id) >= 0`,
where indexOf compares each member object against the id string with
strict equality. -/
def LineGroup._containId (g : LineGroup) (id : String) : Bool :=
  true && decide (0 ≤ jsIndexOf (contactObjVals g.members) (JsVal.str id))

/-- `LineRoom._containId(id)`: same shape over the contact array. -/
def LineRoom._containId (r : LineRoom) (id : String) : Bool :=
  true && decide (0 ≤ jsIndexOf (contactObjVals r.contacts) (JsVal.str id))

/-- `LineGroup.getMemberIds()`: the ids of the member references. -/
def LineGroup.getMemberIds (g : LineGroup) : List String :=
  g.members.map (fun m => m.id)

/-- `LineRoom.getContactIds()`: the ids of the member references. -/
def LineRoom.getContactIds (r : LineRoom) : List String :=
  r.contacts.map (fun c => c.id)

/-- The `rooms` getter of LineContact: filter the client room store with
`_containId`. -/
def LineContact.roomsView (s : ClientState) (c : LineContact) : List LineRoom :=
  s.rooms.filter (fun room => room._containId c.id)

/-- The `groups` getter of LineContact: written with `map` instead of
`filter`, so it yields the list of boolean `_containId` results rather
than a list of groups. -/
def LineContact.groupsView (s : ClientState) (c : LineContact) : List Bool :=
  s.groups.map (fun group => group._containId c.id)

structure LineMessage where
  id : String
  text : String
  hasContent : Bool
  contentType : Nat
  contentPreview : String
  contentMetaData : String
  sender : Option Entity
  receiver : Option Entity
  toType : Nat
  createdTime : Nat
deriving DecidableEq, Repr

/-- The LineMessage constructor: copies the payload fields and resolves
sender and receiver against the directory.  It reads `message._from`, a key
the raw operation message does not carry (the thrift field is `from_`), so
the sender lookup runs with undefined as the id. -/
def LineMessage.ofRaw (s : ClientState) (m : RawMessage) : LineMessage :=
  { id := m.id
    text := m.text
    hasContent := m.hasContent
    contentType := m.contentType
    contentPreview := m.contentPreview
    contentMetaData := m.contentMetadata
    sender := s.getContactOrRoomOrGroupById JsVal.undef
    receiver := s.getContactOrRoomOrGroupById (JsVal.str m.«to»)
    toType := m.toType
    createdTime := m.createdTime }

/-! The longPoll cycle. -/

/-- Observable outcome of one longPoll cycle, from the driver side plus the
console log: `notAuthed` is the generator completing because the auth gate
failed, `loopFellThrough` is the for loop iterating zero operations,
`errorSwallowed` is the catch block logging a non-fatal error, and
`sessionConflict` is the fatal rethrow. -/
inductive PollOutcome where
  | notAuthed
  | emitted (sender receiver : SRVal) (message : LineMessage) (newRevision : Nat)
  | rawOp (op : Operation)
  | loopFellThrough
  | sessionConflict
  | errorSwallowed (e : RemoteError)
deriving DecidableEq, Repr

/-- Result of one longPoll cycle: the outcome, the state at cycle return
(only the revision is written by the cycle itself; every store mutation of
the repair refreshes lives in promise continuations that run later), the
number of fetch-operations calls issued, and the number of repair passes
triggered. -/
structure PollResult where
  outcome : PollOutcome
  state : ClientState
  fetchCalls : Nat
  repairs : Nat
deriving DecidableEq, Repr

/-- The catch block of longPoll: the error is logged; when it is a
TalkException with code 9 a fatal Error is thrown to the driver, otherwise
the generator ends quietly. -/
def catchPoll (s : ClientState) (e : RemoteError) : PollResult :=
  match e with
  | RemoteError.talk code reason =>
    if code == 9 then ⟨PollOutcome.sessionConflict, s, 1, 0⟩
    else ⟨PollOutcome.errorSwallowed (RemoteError.talk code reason), s, 1, 0⟩
  | RemoteError.js msg => ⟨PollOutcome.errorSwallowed (RemoteError.js msg), s, 1, 0⟩

/-- The fallback scan loop `for (let j = 0, memLen = receiver.members;
j < memLen; j++)`: the bound holds the member array itself, so the guard
coerces the array with ToNumber; on an id match the body assigns the
member id string, not the member, to `sender`. -/
def memberScanLoop (rawSender : String) : Nat → Nat → List LineContact → SRVal → SRVal
  | 0, _, _, sender => sender
  | fuel + 1, j, members, sender =>
    if jsLtNumArr j members then
      let hit := (members.getD j default).id == rawSender
      let sender := if hit then SRVal.str (members.getD j default).id else sender
      memberScanLoop rawSender fuel (j + 1) members sender
    else sender

/-- The fallback-sender branch `if (!sender && typeof receiver ===
LineGroup)`: the guard strictly compares the string produced by typeof
against the class value LineGroup, which is false for every receiver. -/
def fallbackSender (sender receiver : SRVal) (rawSender : String) : SRVal :=
  if !sender.truthy && jsStrictEq (JsVal.str receiver.jsTypeof) (JsVal.fn "LineGroup") then
    match receiver with
    | SRVal.ent (Entity.group g) => memberScanLoop rawSender (g.members.length + 1) 0 g.members sender
    | _ => sender
  else sender

/-- The message-bearing branch of the dispatcher switch: build the
LineMessage, resolve sender and receiver, run the fallback branch, and on
an unresolved side issue the three repair refreshes and re-resolve both
ids once.  The refresh calls only start remote requests here: their store
updates run in continuations after this synchronous block, so the
re-resolution reads the same stores as the first resolution.  Finally the
triple is yielded and the revision cursor is advanced to the maximum of
the operation revision and the current revision. -/
def processMessageOp (s : ClientState) (op : Operation) : PollResult :=
  let message := LineMessage.ofRaw s op.message
  let rawSender := op.message.from_
  let rawReceiver := op.message.«to»
  let sender := SRVal.ofOption (s.getContactOrRoomOrGroupById (JsVal.str rawSender))
  let receiver := SRVal.ofOption (s.getContactOrRoomOrGroupById (JsVal.str rawReceiver))
  let sender := fallbackSender sender receiver rawSender
  let needRepair := !sender.truthy || !receiver.truthy
  let sender :=
    if needRepair then SRVal.ofOption (s.getContactOrRoomOrGroupById (JsVal.str rawSender))
    else sender
  let receiver :=
    if needRepair then SRVal.ofOption (s.getContactOrRoomOrGroupById (JsVal.str rawReceiver))
    else receiver
  let newRevision := max op.revision s.revision
  ⟨PollOutcome.emitted sender receiver message newRevision,
   { s with revision := newRevision }, 1, if needRepair then 1 else 0⟩

/-- One longPoll cycle: gate on `_checkAuth`, fetch the operations, treat a
falsy result as the thrown and then caught No Operation error (an empty
array is truthy, so it instead makes the for loop iterate zero times), and
dispatch the first operation on its type. -/
def longPollCycle (s : ClientState) (fetch : Except RemoteError (Option (List Operation))) :
    PollResult :=
  if s._checkAuth then
    match fetch with
    | Except.error e => catchPoll s e
    | Except.ok none => catchPoll s (RemoteError.js "No Operation.")
    | Except.ok (some []) => ⟨PollOutcome.loopFellThrough, s, 1, 0⟩
    | Except.ok (some (op :: _)) =>
      match op.type with
      | OpType.END_OF_OPERATION => processMessageOp s op
      | OpType.SEND_MESSAGE => processMessageOp s op
      | OpType.RECEIVE_MESSAGE => processMessageOp s op
      | OpType.other _ => ⟨PollOutcome.rawOp op, s, 1, 0⟩
  else ⟨PollOutcome.notAuthed, s, 0, 0⟩

/-- The only error the longPoll generator ever throws to its driver. -/
def pollRaisedError (r : PollResult) : Option String :=
  match r.outcome with
  | PollOutcome.sessionConflict => some "user logged in on another machine"
  | _ => none

/-- The operation kinds handled by the message branch of the dispatcher
switch. -/
def isMessageBearing : OpType → Bool
  | OpType.END_OF_OPERATION => true
  | OpType.SEND_MESSAGE => true
  | OpType.RECEIVE_MESSAGE => true
  | OpType.other _ => false

/-- The test in the catch block: `err instanceof TalkException &&
err.code === 9`. -/
def isConflictError : RemoteError → Bool
  | RemoteError.talk code _ => code == 9
  | RemoteError.js _ => false

/-- Driving the poll repeatedly, one fetched operation per driver call. -/
def runPollSequence (s : ClientState) (ops : List Operation) : ClientState :=
  match ops with
  | [] => s
  | op :: rest => runPollSequence (longPollCycle s (Except.ok (some [op]))).state rest

/-! The promise-returning client methods. -/

/-- Resolution of one of the promise-returning client methods, as the
caller observes it. -/
inductive PResult (α : Type) where
  | resolved (a : α)
  | rejected (msg : String)
deriving DecidableEq, Repr

/-- One run of a client method: the promise resolution, the state at
return, and the number of remote calls issued synchronously by the
method. -/
structure OpRun (α : Type) where
  result : PResult α
  state : ClientState
  calls : Nat
deriving DecidableEq, Repr

/-- `getLastOpRevision`: gate, fetch the revision, store it, resolve with
it. -/
def getLastOpRevision (s : ClientState) (remote : Except RemoteError Nat) : OpRun Nat :=
  if s._checkAuth then
    match remote with
    | Except.ok revision => ⟨PResult.resolved revision, { s with revision := revision }, 1⟩
    | Except.error e => ⟨PResult.rejected (remoteMsg e), s, 1⟩
  else ⟨PResult.rejected "Please Login first", s, 0⟩

/-- `getProfile`: gate, fetch the raw record, wrap it as the profile
contact, resolve with it. -/
def getProfile (s : ClientState) (remote : Except RemoteError RawContact) : OpRun LineContact :=
  if s._checkAuth then
    match remote with
    | Except.ok p =>
      let profile := LineContact.ofRaw p
      ⟨PResult.resolved profile, { s with profile := some profile }, 1⟩
    | Except.error e => ⟨PResult.rejected (remoteMsg e), s, 1⟩
  else ⟨PResult.rejected "Please Login first", s, 0⟩

/-- `addGroupsWithIds`: gate, fetch the group records for the ids, wrap
them with the joined flag, append to the group store and re-sort it with
the `a.id - b.id` comparator; a remote failure is caught and becomes the
resolved value. -/
def addGroupsWithIds (s : ClientState) (groupIds : List String) (isJoined : Bool)
    (remote : List String → Except RemoteError (List RawGroup)) :
    OpRun (Sum (List LineGroup) RemoteError) :=
  if s._checkAuth then
    match remote groupIds with
    | Except.ok newGroups =>
      let newGroupsContext := newGroups.map (LineGroup.ofRaw isJoined)
      let groups := jsSortBy (fun a b => idDiffCompare a.id b.id) (s.groups ++ newGroupsContext)
      ⟨PResult.resolved (Sum.inl groups), { s with groups := groups }, 1⟩
    | Except.error e => ⟨PResult.resolved (Sum.inr e), s, 1⟩
  else ⟨PResult.rejected "Please Login first", s, 0⟩

/-- The refreshContacts catch handler: a TalkException with code 8 clears
the token and the certificate. -/
def applyAuthInvalid (s : ClientState) (e : RemoteError) : ClientState :=
  match e with
  | RemoteError.talk code _ =>
    if code == 8 then { s with authToken := none, certificate := none } else s
  | RemoteError.js _ => s

/-- `refreshContacts`: gate, fetch the complete id list, fetch the records,
replace the contact store, sort it with the `a.id - b.id` comparator;
failures are caught, a code 8 failure clears the auth material, and the
error object becomes the resolved value. -/
def refreshContacts (s : ClientState)
    (remoteIds : Except RemoteError (List String))
    (remoteContacts : List String → Except RemoteError (List RawContact)) :
    OpRun (Sum (List LineContact) RemoteError) :=
  if s._checkAuth then
    match remoteIds with
    | Except.error e => ⟨PResult.resolved (Sum.inr e), applyAuthInvalid s e, 1⟩
    | Except.ok contactIds =>
      match remoteContacts contactIds with
      | Except.error e => ⟨PResult.resolved (Sum.inr e), applyAuthInvalid s e, 2⟩
      | Except.ok contacts =>
        let newContacts :=
          jsSortBy (fun a b => idDiffCompare a.id b.id) (contacts.map LineContact.ofRaw)
        ⟨PResult.resolved (Sum.inl newContacts), { s with contacts := newContacts }, 2⟩
  else ⟨PResult.rejected "Please Login first", s, 0⟩

/-- The contact-store replacement that the deferred refreshContacts
continuation performs once its remote records have arrived. -/
def applyContactsRefresh (s : ClientState) (records : List RawContact) : ClientState :=
  { s with contacts :=
      jsSortBy (fun a b => idDiffCompare a.id b.id) (records.map LineContact.ofRaw) }

/-- `refreshGroups`: gate, fire the joined-ids and invited-ids fetches
(two remote calls whose `addGroupsWithIds` continuations run later) and
immediately resolve with the current group store. -/
def refreshGroups (s : ClientState) : OpRun (List LineGroup) :=
  if s._checkAuth then ⟨PResult.resolved s.groups, s, 2⟩
  else ⟨PResult.rejected "Please Login first", s, 0⟩

/-! `refreshActiveRooms` and its pagination loop. -/

structure MessageBoxRec where
  id : String
  midType : MIDType
deriving DecidableEq, Repr, Inhabited

structure BoxWrap where
  messageBox : MessageBoxRec
deriving DecidableEq, Repr, Inhabited

structure Channel where
  messageBoxWrapUpList : Option (List BoxWrap)
deriving DecidableEq, Repr, Inhabited

/-- The synchronous while loop of `refreshActiveRooms`: each iteration sets
`checkChannel` to 0, issues the page fetch for `start` (its `.then`
continuation runs only after this loop has returned), and then tests
`checkChannel === count` at the bottom; the test therefore always reads
the 0 written at the top, so the loop breaks after its first iteration.
The fuel argument only bounds the model; the break is taken at the first
test for any positive fuel. -/
def activeRoomsLoop : Nat → Nat → List Nat → List Nat
  | 0, _, requests => requests
  | fuel + 1, start, requests =>
    let checkChannel := 0
    let requests := requests ++ [start]
    if checkChannel == 50 then activeRoomsLoop fuel (start + 50) requests
    else requests

/-- The box-collection loop `for (let i = 0, len =
channel.messageBoxWrapUpList; i < len; i++)` inside the deferred page
continuation: the bound holds the array itself, so the guard compares `i`
against its ToNumber coercion; the body would fetch and push a LineRoom
for each room-typed box. -/
def boxLoop (roomOf : String → RawRoom) (list : List BoxWrap) :
    Nat → Nat → List LineRoom → List LineRoom
  | 0, _, rooms => rooms
  | fuel + 1, i, rooms =>
    if jsLtNumArr i list then
      let box := list.getD i default
      let rooms :=
        if box.messageBox.midType == MIDType.ROOM then
          rooms ++ [LineRoom.ofRaw (roomOf box.messageBox.id)]
        else rooms
      boxLoop roomOf list fuel (i + 1) rooms
    else rooms

/-- The deferred `.then` continuation for one fetched page: a null list
short-circuits (and the chained `.done` handler then writes 50 into
`checkChannel`, far too late to matter); otherwise it re-assigns
`checkChannel` (equally too late) and runs the box-collection loop. -/
def channelThen (roomOf : String → RawRoom) (channel : Channel) (rooms : List LineRoom) :
    List LineRoom :=
  match channel.messageBoxWrapUpList with
  | none => rooms
  | some list => boxLoop roomOf list (list.length + 1) 0 rooms

/-- Result of `refreshActiveRooms`: the promise resolution, the page
starts requested by the synchronous loop, and the room store after all
deferred page continuations have run. -/
structure RoomsRun where
  result : PResult (List LineRoom)
  pageRequests : List Nat
  roomsAfterCallbacks : List LineRoom
  state : ClientState
deriving DecidableEq, Repr

/-- `refreshActiveRooms`: gate, run the synchronous pagination loop from
start 1 with page size 50, resolve with the current room store, then let
the per-page continuations run. -/
def refreshActiveRooms (s : ClientState) (fuel : Nat)
    (channelOf : Nat → Channel) (roomOf : String → RawRoom) : RoomsRun :=
  if s._checkAuth then
    let requests := activeRoomsLoop fuel 1 []
    let rooms := requests.foldl (fun rooms p => channelThen roomOf (channelOf p) rooms) s.rooms
    ⟨PResult.resolved s.rooms, requests, rooms, { s with rooms := rooms }⟩
  else ⟨PResult.rejected "Please Login first", [], s.rooms, s⟩

/-! Group and room creation, invitation and leaving, and messaging. -/

/-- `createGroupWithIds`: gate, create remotely, wrap the created record
(joined), push it onto the group store, resolve with it. -/
def createGroupWithIds (s : ClientState) (name : String) (ids : List String)
    (remote : String → List String → Except RemoteError RawGroup) : OpRun LineGroup :=
  if s._checkAuth then
    match remote name ids with
    | Except.ok created =>
      let group := LineGroup.ofRaw true created
      ⟨PResult.resolved group, { s with groups := s.groups ++ [group] }, 1⟩
    | Except.error e => ⟨PResult.rejected (remoteMsg e), s, 1⟩
  else ⟨PResult.rejected "Please Login first", s, 0⟩

/-- `createGroupWithContacts`: gate, collect the contact ids, then as
`createGroupWithIds`. -/
def createGroupWithContacts (s : ClientState) (name : String) (contacts : List LineContact)
    (remote : String → List String → Except RemoteError RawGroup) : OpRun LineGroup :=
  if s._checkAuth then
    let contactIds := contacts.map (fun c => c.id)
    match remote name contactIds with
    | Except.ok created =>
      let group := LineGroup.ofRaw true created
      ⟨PResult.resolved group, { s with groups := s.groups ++ [group] }, 1⟩
    | Except.error e => ⟨PResult.rejected (remoteMsg e), s, 1⟩
  else ⟨PResult.rejected "Please Login first", s, 0⟩

/-- `inviteIntoGroup`: gate, collect the contact ids, forward the remote
call result. -/
def inviteIntoGroup (s : ClientState) (group : LineGroup) (contacts : List LineContact)
    (remote : String → List String → Except RemoteError Unit) : OpRun Unit :=
  if s._checkAuth then
    let contactIds := contacts.map (fun c => c.id)
    match remote group.id contactIds with
    | Except.ok u => ⟨PResult.resolved u, s, 1⟩
    | Except.error e => ⟨PResult.rejected (remoteMsg e), s, 1⟩
  else ⟨PResult.rejected "Please Login first", s, 0⟩

/-- `leaveGroup`: gate; on remote success every store group whose id
equals the argument id is filtered out and the promise resolves true; on
remote failure the second `.then` handler resolves false and the store is
untouched. -/
def leaveGroup (s : ClientState) (group : LineGroup)
    (remote : String → Except RemoteError Unit) : OpRun Bool :=
  if s._checkAuth then
    match remote group.id with
    | Except.ok _ =>
      ⟨PResult.resolved true,
       { s with groups := s.groups.filter (fun gp => gp.id != group.id) }, 1⟩
    | Except.error _ => ⟨PResult.resolved false, s, 1⟩
  else ⟨PResult.rejected "Please Login first", s, 0⟩

/-- `createRoomWithIds`: gate, create remotely, wrap the created record,
push it onto the room store, resolve with it. -/
def createRoomWithIds (s : ClientState) (ids : List String)
    (remote : List String → Except RemoteError RawRoom) : OpRun LineRoom :=
  if s._checkAuth then
    match remote ids with
    | Except.ok created =>
      let room := LineRoom.ofRaw created
      ⟨PResult.resolved room, { s with rooms := s.rooms ++ [room] }, 1⟩
    | Except.error e => ⟨PResult.rejected (remoteMsg e), s, 1⟩
  else ⟨PResult.rejected "Please Login first", s, 0⟩

/-- `createRoomWithContacts`: gate; the id-collection loop pushes
`contacts.id` onto the `contacts` array itself instead of filling
`contactIds`, so the remote call receives an empty id list. -/
def createRoomWithContacts (s : ClientState) (contacts : List LineContact)
    (remote : List String → Except RemoteError RawRoom) : OpRun LineRoom :=
  if s._checkAuth then
    let contactIds : List String := []
    match remote contactIds with
    | Except.ok created =>
      let room := LineRoom.ofRaw created
      ⟨PResult.resolved room, { s with rooms := s.rooms ++ [room] }, 1⟩
    | Except.error e => ⟨PResult.rejected (remoteMsg e), s, 1⟩
  else ⟨PResult.rejected "Please Login first", s, 0⟩

/-- `inviteIntoRoom`: gate; the same id-collection slip as
`createRoomWithContacts`, so the remote call receives an empty id list;
the remote call result is forwarded. -/
def inviteIntoRoom (s : ClientState) (room : LineRoom) (contacts : List LineContact)
    (remote : String → List String → Except RemoteError Unit) : OpRun Unit :=
  if s._checkAuth then
    let contactIds : List String := []
    match remote room.id contactIds with
    | Except.ok u => ⟨PResult.resolved u, s, 1⟩
    | Except.error e => ⟨PResult.rejected (remoteMsg e), s, 1⟩
  else ⟨PResult.rejected "Please Login first", s, 0⟩

/-- `leaveRoom`: gate; on remote success every store room whose id equals
the argument id is filtered out and the promise resolves true; on remote
failure it resolves false and the store is untouched. -/
def leaveRoom (s : ClientState) (room : LineRoom)
    (remote : String → Except RemoteError Unit) : OpRun Bool :=
  if s._checkAuth then
    match remote room.id with
    | Except.ok _ =>
      ⟨PResult.resolved true,
       { s with rooms := s.rooms.filter (fun rm => rm.id != room.id) }, 1⟩
    | Except.error _ => ⟨PResult.resolved false, s, 1⟩
  else ⟨PResult.rejected "Please Login first", s, 0⟩

/-- `sendMessage`: gate, forward the remote call result. -/
def sendMessage (s : ClientState) (message : RawMessage) (seq : Nat)
    (remote : RawMessage → Nat → Except RemoteError RawMessage) : OpRun RawMessage :=
  if s._checkAuth then
    match remote message seq with
    | Except.ok m => ⟨PResult.resolved m, s, 1⟩
    | Except.error e => ⟨PResult.rejected (remoteMsg e), s, 1⟩
  else ⟨PResult.rejected "Please Login first", s, 0⟩

/-- `getRecentMessages`: gate, fetch the raw messages of the box, wrap each
through the LineMessage constructor. -/
def getRecentMessages (s : ClientState) (messageBoxId : String) (count : Nat)
    (remote : String → Nat → Except RemoteError (List RawMessage)) : OpRun (List LineMessage) :=
  if s._checkAuth then
    match remote messageBoxId count with
    | Except.ok msgs => ⟨PResult.resolved (msgs.map (LineMessage.ofRaw s)), s, 1⟩
    | Except.error e => ⟨PResult.rejected (remoteMsg e), s, 1⟩
  else ⟨PResult.rejected "Please Login first", s, 0⟩

/-! Concrete inputs used to evaluate the embedded code. -/

def c1State : ClientState := { authToken := some "token", revision := 100 }

def c1Msg : RawMessage := { id := "m1", text := "hi", from_ := "u1", «to» := "u2" }

def c1OpA : Operation := { type := OpType.RECEIVE_MESSAGE, revision := 105, message := c1Msg }

def c1OpB : Operation := { type := OpType.SEND_MESSAGE, revision := 103, message := c1Msg }

def c2ContactU2 : LineContact := { id := "u2", name := "Bob" }

def c2Contact1 : LineContact := { id := "u1", name := "Alice" }

def c2Group : LineGroup := { id := "g1", name := "G", members := [c2ContactU2] }

def c2State : ClientState :=
  { authToken := some "token", revision := 100, contacts := [c2Contact1], groups := [c2Group] }

def c2Msg : RawMessage := { id := "m1", text := "hi", from_ := "u2", «to» := "g1" }

def c2Op : Operation := { type := OpType.RECEIVE_MESSAGE, revision := 105, message := c2Msg }

def c3State : ClientState := { authToken := some "token", revision := 100 }

def c4RawA : RawContact := { mid := "c3", displayName := "Charlie" }

def c4RawB : RawContact := { mid := "c1", displayName := "Anna" }

def c4RawC : RawContact := { mid := "c2", displayName := "Bert" }

def c4State : ClientState :=
  { authToken := some "token", contacts := [{ id := "old", name := "Old" }] }

def c5NoTok : ClientState := { authToken := none }

def c5TokState : ClientState := { authToken := some "token" }

def c5RawProfile : RawContact := { mid := "me", displayName := "Me" }

def c5RawGroup : RawGroup := { id := "g9", name := "G9" }

def c5RawRoom : RawRoom := { mid := "r9" }

def c5Group : LineGroup := { id := "g9", name := "G9" }

def c5Room : LineRoom := { id := "r9" }

def c5Msg : RawMessage := { id := "m9", text := "x", from_ := "me", «to» := "g9" }

def c6Box : BoxWrap := { messageBox := { id := "room1", midType := MIDType.ROOM } }

def c6Boxes : List BoxWrap := List.replicate 120 c6Box

def c6ChannelOf (start : Nat) : Channel :=
  { messageBoxWrapUpList := some ((c6Boxes.drop (start - 1)).take 50) }

def c6RoomOf (id : String) : RawRoom := { mid := id }

def c6State : ClientState := { authToken := some "token" }

def c7Contact1 : LineContact := { id := "u1", name := "Alice" }

def c7RawU1 : RawContact := { mid := "u1", displayName := "Alice" }

def c7RawU2 : RawContact := { mid := "u2", displayName := "Bob" }

def c7State : ClientState :=
  { authToken := some "token", revision := 100, contacts := [c7Contact1] }

def c7Msg : RawMessage := { id := "m2", text := "yo", from_ := "u2", «to» := "u1" }

def c7Op : Operation := { type := OpType.RECEIVE_MESSAGE, revision := 106, message := c7Msg }

def c8Contact : LineContact := { id := "u2", name := "Bob" }

def c8Group : LineGroup := { id := "g1", name := "G", members := [c8Contact] }

def c8Room : LineRoom := { id := "r1", contacts := [c8Contact] }

def c8State : ClientState :=
  { authToken := some "token", contacts := [c8Contact], groups := [c8Group], rooms := [c8Room] }

def c9State : ClientState := { authToken := some "token", revision := 100 }

def c10Group : LineGroup := { id := "g1", name := "G" }

def c10GroupB : LineGroup := { id := "g2", name := "H" }

def c10Room : LineRoom := { id := "r1" }

def c10RoomB : LineRoom := { id := "r2" }

def c10State : ClientState :=
  { authToken := some "token", groups := [c10Group, c10GroupB], rooms := [c10Room, c10RoomB] }

/-- The auth-gate behaviour of the gated client methods, over a tokenless
state `s` and a token-holding state `t`: without a token each
promise-returning method rejects with the login error, leaves the state in
place and makes no remote call, while longPoll makes no fetch, mutates
nothing and raises no error at all; with a token each method reaches its
remote call. -/
def authGateSpec (s t : ClientState) (n : Nat)
    (r1 : Except RemoteError Nat) (r2 : Except RemoteError RawContact)
    (rgm : List String → Except RemoteError (List RawGroup))
    (rci : Except RemoteError (List String))
    (rcs : List String → Except RemoteError (List RawContact))
    (ch : Nat → Channel) (ro : String → RawRoom)
    (rcg : String → List String → Except RemoteError RawGroup)
    (rcr : List String → Except RemoteError RawRoom)
    (rig : String → List String → Except RemoteError Unit)
    (rir : String → List String → Except RemoteError Unit)
    (rlg : String → Except RemoteError Unit)
    (rlr : String → Except RemoteError Unit)
    (rsm : RawMessage → Nat → Except RemoteError RawMessage)
    (rrm : String → Nat → Except RemoteError (List RawMessage))
    (gname : String) (gids : List String) (cts : List LineContact)
    (g : LineGroup) (room : LineRoom) (msg : RawMessage)
    (boxId : String) (cnt : Nat)
    (f : Except RemoteError (Option (List Operation))) : Prop :=
  getLastOpRevision s r1 = ⟨PResult.rejected "Please Login first", s, 0⟩
  ∧ getProfile s r2 = ⟨PResult.rejected "Please Login first", s, 0⟩
  ∧ addGroupsWithIds s gids true rgm = ⟨PResult.rejected "Please Login first", s, 0⟩
  ∧ refreshContacts s rci rcs = ⟨PResult.rejected "Please Login first", s, 0⟩
  ∧ refreshGroups s = ⟨PResult.rejected "Please Login first", s, 0⟩
  ∧ refreshActiveRooms s n ch ro = ⟨PResult.rejected "Please Login first", [], s.rooms, s⟩
  ∧ createGroupWithIds s gname gids rcg = ⟨PResult.rejected "Please Login first", s, 0⟩
  ∧ createGroupWithContacts s gname cts rcg = ⟨PResult.rejected "Please Login first", s, 0⟩
  ∧ createRoomWithIds s gids rcr = ⟨PResult.rejected "Please Login first", s, 0⟩
  ∧ createRoomWithContacts s cts rcr = ⟨PResult.rejected "Please Login first", s, 0⟩
  ∧ inviteIntoGroup s g cts rig = ⟨PResult.rejected "Please Login first", s, 0⟩
  ∧ inviteIntoRoom s room cts rir = ⟨PResult.rejected "Please Login first", s, 0⟩
  ∧ leaveGroup s g rlg = ⟨PResult.rejected "Please Login first", s, 0⟩
  ∧ leaveRoom s room rlr = ⟨PResult.rejected "Please Login first", s, 0⟩
  ∧ sendMessage s msg 0 rsm = ⟨PResult.rejected "Please Login first", s, 0⟩
  ∧ getRecentMessages s boxId cnt rrm = ⟨PResult.rejected "Please Login first", s, 0⟩
  ∧ longPollCycle s f = ⟨PollOutcome.notAuthed, s, 0, 0⟩
  ∧ pollRaisedError (longPollCycle s f) = none
  ∧ 1 ≤ (getLastOpRevision t r1).calls
  ∧ 1 ≤ (getProfile t r2).calls
  ∧ 1 ≤ (addGroupsWithIds t gids true rgm).calls
  ∧ 1 ≤ (refreshContacts t rci rcs).calls
  ∧ (refreshGroups t).calls = 2
  ∧ 1 ≤ (refreshActiveRooms t (n + 1) ch ro).pageRequests.length
  ∧ 1 ≤ (createGroupWithIds t gname gids rcg).calls
  ∧ 1 ≤ (createGroupWithContacts t gname cts rcg).calls
  ∧ 1 ≤ (createRoomWithIds t gids rcr).calls
  ∧ 1 ≤ (createRoomWithContacts t cts rcr).calls
  ∧ 1 ≤ (inviteIntoGroup t g cts rig).calls
  ∧ 1 ≤ (inviteIntoRoom t room cts rir).calls
  ∧ 1 ≤ (leaveGroup t g rlg).calls
  ∧ 1 ≤ (leaveRoom t room rlr).calls
  ∧ 1 ≤ (sendMessage t msg 0 rsm).calls
  ∧ 1 ≤ (getRecentMessages t boxId cnt rrm).calls
  ∧ (longPollCycle t f).fetchCalls = 1

/-! Theorems. -/

/-- The state component of a cycle processing a message-bearing first
operation: stores untouched, revision advanced to the maximum. -/
theorem c1_cycle_state (s : ClientState) (op : Operation) (rest : List Operation)
    (hAuth : s._checkAuth = true) (hOp : isMessageBearing op.type = true) :
    (longPollCycle s (Except.ok (some (op :: rest)))).state =
      { s with revision := max op.revision s.revision } := by
  cases hty : op.type with
  | END_OF_OPERATION => simp [longPollCycle, hAuth, hty, processMessageOp]
  | SEND_MESSAGE => simp [longPollCycle, hAuth, hty, processMessageOp]
  | RECEIVE_MESSAGE => simp [longPollCycle, hAuth, hty, processMessageOp]
  | other n => rw [hty] at hOp; simp [isMessageBearing] at hOp

/-- The revision after a driven sequence of message-bearing cycles is the
fold of max over the operation revisions. -/
theorem c1_seq_revision (ops : List Operation) : ∀ s : ClientState,
    s._checkAuth = true → (∀ o ∈ ops, isMessageBearing o.type = true) →
    (runPollSequence s ops).revision = (ops.map Operation.revision).foldl max s.revision := by
  induction ops with
  | nil => intro s h1 h2; simp [runPollSequence]
  | cons op rest ih =>
    intro s h1 h2
    have hop : isMessageBearing op.type = true := h2 op (List.mem_cons_self op rest)
    have hstate := c1_cycle_state s op [] h1 hop
    have h1b : ({ s with revision := max op.revision s.revision } : ClientState)._checkAuth
        = true := h1
    have hrest : ∀ o ∈ rest, isMessageBearing o.type = true :=
      fun o ho => h2 o (List.mem_cons_of_mem op ho)
    simp only [runPollSequence, hstate]
    rw [ih { s with revision := max op.revision s.revision } h1b hrest]
    simp [Nat.max_comm]

/-- A fold of max over a list never goes below its seed. -/
theorem c1_le_foldl_max (l : List Nat) : ∀ b : Nat, b ≤ l.foldl max b := by
  induction l with
  | nil => intro b; exact Nat.le_refl b
  | cons x xs ih =>
    intro b
    exact Nat.le_trans (Nat.le_max_left b x) (ih (max b x))

/-- C1: a poll cycle that processes a message-bearing operation with
revision r sets the session revision to max(revision before, r), and over
a driven sequence of message-bearing operations the revision equals the
running maximum of the starting revision and the operation revisions, in
particular never decreasing. -/
theorem c1_revision_running_max (s : ClientState) (op : Operation) (rest : List Operation)
    (ops : List Operation) (hAuth : s._checkAuth = true)
    (hOp : isMessageBearing op.type = true)
    (hops : ∀ o ∈ ops, isMessageBearing o.type = true) :
    (longPollCycle s (Except.ok (some (op :: rest)))).state.revision = max s.revision op.revision
    ∧ (runPollSequence s ops).revision = (ops.map Operation.revision).foldl max s.revision
    ∧ s.revision ≤ (runPollSequence s ops).revision := by
  refine ⟨?_, c1_seq_revision ops s hAuth hops, ?_⟩
  · rw [c1_cycle_state s op rest hAuth hOp]
    exact Nat.max_comm op.revision s.revision
  · rw [c1_seq_revision ops s hAuth hops]
    exact c1_le_foldl_max (ops.map Operation.revision) s.revision

/-- C1 witness: the theorem instantiated at a concrete state with revision
100 and operations with revisions 105 and 103. -/
theorem c1_revision_running_max_witness :
    (longPollCycle c1State (Except.ok (some [c1OpA]))).state.revision
      = max c1State.revision c1OpA.revision
    ∧ (runPollSequence c1State [c1OpA, c1OpB]).revision
      = ([c1OpA, c1OpB].map Operation.revision).foldl max c1State.revision
    ∧ c1State.revision ≤ (runPollSequence c1State [c1OpA, c1OpB]).revision :=
  c1_revision_running_max c1State c1OpA [] [c1OpA, c1OpB] (by decide) (by decide) (by decide)

/-- C2 (code evaluated at the failing input): the sender id u2 is absent
from the directory, the receiver resolves to group g1 whose member list
contains u2, yet the emitted triple has an undefined sender, because the
fallback guard strictly compares the typeof string against the LineGroup
class value and never fires. -/
theorem c2_fallback_never_fires :
    "u2" ∈ c2Group.getMemberIds
    ∧ c2State.getContactOrRoomOrGroupById (JsVal.str "u2") = none
    ∧ c2State.getContactOrRoomOrGroupById (JsVal.str "g1") = some (Entity.group c2Group)
    ∧ jsStrictEq (JsVal.str (SRVal.ent (Entity.group c2Group)).jsTypeof)
        (JsVal.fn "LineGroup") = false
    ∧ (longPollCycle c2State (Except.ok (some [c2Op]))).outcome =
        PollOutcome.emitted SRVal.undef (SRVal.ent (Entity.group c2Group))
          (LineMessage.ofRaw c2State c2Msg) 105 := by
  decide

/-- C3 counterexample: an empty operations list is truthy, so the cycle
does not produce the no-operation report; it iterates zero operations and
ends silently with the state unchanged. -/
theorem c3_counterexample :
    (longPollCycle c3State (Except.ok (some []))).outcome ≠
        PollOutcome.errorSwallowed (RemoteError.js "No Operation.")
    ∧ (longPollCycle c3State (Except.ok (some []))).outcome = PollOutcome.loopFellThrough
    ∧ (longPollCycle c3State (Except.ok (some []))).state = c3State := by
  decide

/-- C3 amended: only a null fetch result produces the logged No Operation
error; an empty list makes the cycle end silently; in both cases nothing is
emitted and the state, in particular the revision, is unchanged. -/
theorem c3_empty_list_silent (s : ClientState) (hAuth : s._checkAuth = true) :
    (longPollCycle s (Except.ok none)).outcome =
        PollOutcome.errorSwallowed (RemoteError.js "No Operation.")
    ∧ (longPollCycle s (Except.ok none)).state = s
    ∧ (longPollCycle s (Except.ok (some []))).outcome = PollOutcome.loopFellThrough
    ∧ (longPollCycle s (Except.ok (some []))).state = s
    ∧ (longPollCycle s (Except.ok (some []))).outcome ≠
        PollOutcome.errorSwallowed (RemoteError.js "No Operation.") := by
  refine ⟨?_, ?_, ?_, ?_, ?_⟩ <;> simp [longPollCycle, hAuth, catchPoll]

/-- C3 witness: the amended theorem instantiated at a concrete state. -/
theorem c3_empty_list_silent_witness :
    (longPollCycle c3State (Except.ok none)).outcome =
        PollOutcome.errorSwallowed (RemoteError.js "No Operation.")
    ∧ (longPollCycle c3State (Except.ok none)).state = c3State
    ∧ (longPollCycle c3State (Except.ok (some []))).outcome = PollOutcome.loopFellThrough
    ∧ (longPollCycle c3State (Except.ok (some []))).state = c3State
    ∧ (longPollCycle c3State (Except.ok (some []))).outcome ≠
        PollOutcome.errorSwallowed (RemoteError.js "No Operation.") :=
  c3_empty_list_silent c3State (by decide)

/-- C4 (code evaluated at the failing input): refreshing with records c3,
c1, c2 replaces the store but leaves it in fetch order, because the
comparator a.id - b.id is NaN on these ids, SortCompare treats NaN as
zero, and the stable sort then moves nothing; the claimed ascending order
c1, c2, c3 does not appear. -/
theorem c4_sort_is_inert :
    ((refreshContacts c4State (Except.ok ["c3", "c1", "c2"])
        (fun _ => Except.ok [c4RawA, c4RawB, c4RawC])).state.contacts.map (fun c => c.id))
      = ["c3", "c1", "c2"]
    ∧ (refreshContacts c4State (Except.ok ["c3", "c1", "c2"])
        (fun _ => Except.ok [c4RawA, c4RawB, c4RawC])).state.contacts
      = [LineContact.ofRaw c4RawA, LineContact.ofRaw c4RawB, LineContact.ofRaw c4RawC]
    ∧ idDiffCompare "c3" "c1" = 0
    ∧ (["c3", "c1", "c2"] : List String) ≠ ["c1", "c2", "c3"] := by
  decide

/-- C5 counterexample: longPoll invoked without a token performs no fetch,
but contrary to the claim it raises no auth-required error: the generator
body is skipped and the cycle ends with no rejection and no thrown
error. -/
theorem c5_gate_counterexample :
    longPollCycle c5NoTok (Except.ok (some [])) = ⟨PollOutcome.notAuthed, c5NoTok, 0, 0⟩
    ∧ pollRaisedError (longPollCycle c5NoTok (Except.ok (some []))) = none
    ∧ (longPollCycle c5NoTok (Except.ok (some []))).fetchCalls = 0 := by
  decide

/-- Helper for C5: every authenticated cycle issues exactly one fetch. -/
theorem c5_fetch_calls (t : ClientState) (f : Except RemoteError (Option (List Operation)))
    (ht : t._checkAuth = true) : (longPollCycle t f).fetchCalls = 1 := by
  cases f with
  | error e =>
    cases e with
    | talk code reason =>
      simp only [longPollCycle, ht, if_true, catchPoll]
      split <;> rfl
    | js m => simp [longPollCycle, ht, catchPoll]
  | ok ops =>
    cases ops with
    | none => simp [longPollCycle, ht, catchPoll]
    | some l =>
      cases l with
      | nil => simp [longPollCycle, ht]
      | cons op rest =>
        cases hty : op.type <;> simp [longPollCycle, ht, hty, processMessageOp]

/-- Helper for C5: refreshContacts with a token reaches the remote. -/
theorem c5_calls_refreshContacts (t : ClientState)
    (rci : Except RemoteError (List String))
    (rcs : List String → Except RemoteError (List RawContact))
    (ht : t._checkAuth = true) : 1 ≤ (refreshContacts t rci rcs).calls := by
  cases rci with
  | error e => simp [refreshContacts, ht]
  | ok ids => cases h : rcs ids <;> simp [refreshContacts, ht, h]

/-- C5 amended: without a token every gated promise-returning method
rejects with the login error and makes no remote call, and longPoll makes
no fetch but, unlike the others, raises no error at all; with a token
every gated method reaches its remote call. -/
theorem c5_auth_gate (s t : ClientState) (n : Nat)
    (r1 : Except RemoteError Nat) (r2 : Except RemoteError RawContact)
    (rgm : List String → Except RemoteError (List RawGroup))
    (rci : Except RemoteError (List String))
    (rcs : List String → Except RemoteError (List RawContact))
    (ch : Nat → Channel) (ro : String → RawRoom)
    (rcg : String → List String → Except RemoteError RawGroup)
    (rcr : List String → Except RemoteError RawRoom)
    (rig : String → List String → Except RemoteError Unit)
    (rir : String → List String → Except RemoteError Unit)
    (rlg : String → Except RemoteError Unit)
    (rlr : String → Except RemoteError Unit)
    (rsm : RawMessage → Nat → Except RemoteError RawMessage)
    (rrm : String → Nat → Except RemoteError (List RawMessage))
    (gname : String) (gids : List String) (cts : List LineContact)
    (g : LineGroup) (room : LineRoom) (msg : RawMessage)
    (boxId : String) (cnt : Nat)
    (f : Except RemoteError (Option (List Operation)))
    (hs : s._checkAuth = false) (ht : t._checkAuth = true) :
    authGateSpec s t n r1 r2 rgm rci rcs ch ro rcg rcr rig rir rlg rlr rsm rrm
      gname gids cts g room msg boxId cnt f := by
  unfold authGateSpec
  refine ⟨by simp [getLastOpRevision, hs], by simp [getProfile, hs],
    by simp [addGroupsWithIds, hs], by simp [refreshContacts, hs],
    by simp [refreshGroups, hs], by simp [refreshActiveRooms, hs],
    by simp [createGroupWithIds, hs], by simp [createGroupWithContacts, hs],
    by simp [createRoomWithIds, hs], by simp [createRoomWithContacts, hs],
    by simp [inviteIntoGroup, hs], by simp [inviteIntoRoom, hs],
    by simp [leaveGroup, hs], by simp [leaveRoom, hs],
    by simp [sendMessage, hs], by simp [getRecentMessages, hs],
    by simp [longPollCycle, hs], by simp [pollRaisedError, longPollCycle, hs],
    by cases r1 <;> simp [getLastOpRevision, ht],
    by cases r2 <;> simp [getProfile, ht],
    by cases h : rgm gids <;> simp [addGroupsWithIds, ht, h],
    c5_calls_refreshContacts t rci rcs ht,
    by simp [refreshGroups, ht],
    by simp [refreshActiveRooms, ht, activeRoomsLoop],
    by cases h : rcg gname gids <;> simp [createGroupWithIds, ht, h],
    by cases h : rcg gname (cts.map (fun c => c.id)) <;> simp [createGroupWithContacts, ht, h],
    by cases h : rcr gids <;> simp [createRoomWithIds, ht, h],
    by cases h : rcr [] <;> simp [createRoomWithContacts, ht, h],
    by cases h : rig g.id (cts.map (fun c => c.id)) <;> simp [inviteIntoGroup, ht, h],
    by cases h : rir room.id [] <;> simp [inviteIntoRoom, ht, h],
    by cases h : rlg g.id <;> simp [leaveGroup, ht, h],
    by cases h : rlr room.id <;> simp [leaveRoom, ht, h],
    by cases h : rsm msg 0 <;> simp [sendMessage, ht, h],
    by cases h : rrm boxId cnt <;> simp [getRecentMessages, ht, h],
    c5_fetch_calls t f ht⟩

/-- C5 witness: the amended gate theorem instantiated at concrete states
and oracles. -/
theorem c5_auth_gate_witness :
    authGateSpec c5NoTok c5TokState 3 (Except.ok 7) (Except.ok c5RawProfile)
      (fun _ => Except.ok []) (Except.ok []) (fun _ => Except.ok [])
      (fun _ => ({ messageBoxWrapUpList := some [] } : Channel)) (fun i => ({ mid := i } : RawRoom))
      (fun _ _ => Except.ok c5RawGroup) (fun _ => Except.ok c5RawRoom)
      (fun _ _ => Except.ok ()) (fun _ _ => Except.ok ())
      (fun _ => Except.ok ()) (fun _ => Except.ok ())
      (fun m _ => Except.ok m) (fun _ _ => Except.ok [])
      "name" ["a"] [] c5Group c5Room c5Msg "box" 1 (Except.ok (some [])) :=
  c5_auth_gate c5NoTok c5TokState 3 (Except.ok 7) (Except.ok c5RawProfile)
    (fun _ => Except.ok []) (Except.ok []) (fun _ => Except.ok [])
    (fun _ => ({ messageBoxWrapUpList := some [] } : Channel)) (fun i => ({ mid := i } : RawRoom))
    (fun _ _ => Except.ok c5RawGroup) (fun _ => Except.ok c5RawRoom)
    (fun _ _ => Except.ok ()) (fun _ _ => Except.ok ())
    (fun _ => Except.ok ()) (fun _ => Except.ok ())
    (fun m _ => Except.ok m) (fun _ _ => Except.ok [])
    "name" ["a"] [] c5Group c5Room c5Msg "box" 1 (Except.ok (some []))
    (by decide) (by decide)

/-- C6 (code evaluated at the failing input): with 120 boxes on the remote
(three pages of size 50, all room-typed) the loop issues exactly one page
request, because the loop test reads checkChannel before the fetch
continuation can assign it, and the continuation appends no room at all,
because its loop bound holds the array itself; the claimed ceil(120/50)=3
pages and the per-box room appends do not happen. -/
theorem c6_single_page_no_rooms :
    (refreshActiveRooms c6State 10 c6ChannelOf c6RoomOf).pageRequests = [1]
    ∧ (refreshActiveRooms c6State 10 c6ChannelOf c6RoomOf).roomsAfterCallbacks = []
    ∧ (120 + 50 - 1) / 50 = 3
    ∧ c6Boxes.length = 120
    ∧ ((c6ChannelOf 1).messageBoxWrapUpList.getD []).length = 50
    ∧ ((c6ChannelOf 1).messageBoxWrapUpList.getD []).all
        (fun b => b.messageBox.midType == MIDType.ROOM) = true := by
  decide

/-- C7 (code evaluated at the failing input): the cycle triggers exactly
one repair pass and still yields its triple, but the re-resolution runs
against the pre-repair store: the emitted sender is undefined even though
the contact store produced by the deferred refreshContacts continuation
resolves the sender id u2. -/
theorem c7_repair_uses_stale_store :
    (longPollCycle c7State (Except.ok (some [c7Op]))).repairs = 1
    ∧ (longPollCycle c7State (Except.ok (some [c7Op]))).outcome =
        PollOutcome.emitted SRVal.undef (SRVal.ent (Entity.contact c7Contact1))
          (LineMessage.ofRaw c7State c7Msg) 106
    ∧ (applyContactsRefresh c7State [c7RawU1, c7RawU2]).getContactOrRoomOrGroupById
        (JsVal.str "u2") = some (Entity.contact (LineContact.ofRaw c7RawU2)) := by
  decide

/-- C8 (code evaluated at the failing input): the membership predicate is
false although the member id list contains the id (indexOf compares member
objects against the id string with strict equality), the rooms view is
consequently empty although a room contains the contact, and the groups
view is a list of booleans produced by map rather than a filtered list of
groups. -/
theorem c8_views_and_membership :
    c8Group._containId "u2" = false
    ∧ "u2" ∈ c8Group.getMemberIds
    ∧ c8Room._containId "u2" = false
    ∧ "u2" ∈ c8Room.getContactIds
    ∧ LineContact.roomsView c8State c8Contact = []
    ∧ LineContact.groupsView c8State c8Contact = [false] := by
  decide

/-- C9: a fetch failure that is a TalkException with code 9 makes the
cycle raise the fatal session-conflict error with the state untouched; any
other fetch failure is swallowed, the cycle ends with the state (and hence
the revision) unchanged, and no conflict error is raised. -/
theorem c9_session_conflict (s : ClientState) (e : RemoteError)
    (hAuth : s._checkAuth = true) :
    (isConflictError e = true →
      (longPollCycle s (Except.error e)).outcome = PollOutcome.sessionConflict
      ∧ (longPollCycle s (Except.error e)).state = s)
    ∧ (isConflictError e = false →
      (longPollCycle s (Except.error e)).outcome = PollOutcome.errorSwallowed e
      ∧ (longPollCycle s (Except.error e)).state = s
      ∧ (longPollCycle s (Except.error e)).outcome ≠ PollOutcome.sessionConflict) := by
  cases e with
  | talk code reason =>
    constructor
    · intro h
      simp only [isConflictError] at h
      simp [longPollCycle, hAuth, catchPoll, h]
    · intro h
      simp only [isConflictError] at h
      simp [longPollCycle, hAuth, catchPoll, h]
  | js m =>
    constructor
    · intro h; simp [isConflictError] at h
    · intro h; simp [longPollCycle, hAuth, catchPoll]

/-- C9 witness: the theorem instantiated at a concrete state and at the
conflict error TalkException code 9. -/
theorem c9_session_conflict_witness :
    (isConflictError (RemoteError.talk 9 "conflict") = true →
      (longPollCycle c9State (Except.error (RemoteError.talk 9 "conflict"))).outcome
        = PollOutcome.sessionConflict
      ∧ (longPollCycle c9State (Except.error (RemoteError.talk 9 "conflict"))).state = c9State)
    ∧ (isConflictError (RemoteError.talk 9 "conflict") = false →
      (longPollCycle c9State (Except.error (RemoteError.talk 9 "conflict"))).outcome
        = PollOutcome.errorSwallowed (RemoteError.talk 9 "conflict")
      ∧ (longPollCycle c9State (Except.error (RemoteError.talk 9 "conflict"))).state = c9State
      ∧ (longPollCycle c9State (Except.error (RemoteError.talk 9 "conflict"))).outcome
          ≠ PollOutcome.sessionConflict) :=
  c9_session_conflict c9State (RemoteError.talk 9 "conflict") (by decide)

/-- C10: with a token held, a successful remote leave resolves true and
removes exactly the matching-id entries from the corresponding store
(leaving the other stores and entries in place), while a failed remote
leave resolves false, with no rejection and no surfaced error, and leaves
the state unchanged; for groups and rooms alike. -/
theorem c10_leave_behavior (s : ClientState) (g : LineGroup) (r : LineRoom)
    (rgOk rgErr rrOk rrErr : String → Except RemoteError Unit) (eg er : RemoteError)
    (hAuth : s._checkAuth = true)
    (hgo : rgOk g.id = Except.ok ()) (hge : rgErr g.id = Except.error eg)
    (hro : rrOk r.id = Except.ok ()) (hre : rrErr r.id = Except.error er) :
    leaveGroup s g rgOk = ⟨PResult.resolved true,
      { s with groups := s.groups.filter (fun gp => gp.id != g.id) }, 1⟩
    ∧ leaveGroup s g rgErr = ⟨PResult.resolved false, s, 1⟩
    ∧ leaveRoom s r rrOk = ⟨PResult.resolved true,
      { s with rooms := s.rooms.filter (fun rm => rm.id != r.id) }, 1⟩
    ∧ leaveRoom s r rrErr = ⟨PResult.resolved false, s, 1⟩ := by
  refine ⟨?_, ?_, ?_, ?_⟩ <;> simp [leaveGroup, leaveRoom, hAuth, hgo, hge, hro, hre]

/-- C10 witness: the theorem instantiated at a two-group, two-room store
with concrete succeeding and failing remotes. -/
theorem c10_leave_behavior_witness :
    leaveGroup c10State c10Group (fun _ => Except.ok ()) = ⟨PResult.resolved true,
      { c10State with groups := c10State.groups.filter (fun gp => gp.id != c10Group.id) }, 1⟩
    ∧ leaveGroup c10State c10Group (fun _ => Except.error (RemoteError.js "boom"))
      = ⟨PResult.resolved false, c10State, 1⟩
    ∧ leaveRoom c10State c10Room (fun _ => Except.ok ()) = ⟨PResult.resolved true,
      { c10State with rooms := c10State.rooms.filter (fun rm => rm.id != c10Room.id) }, 1⟩
    ∧ leaveRoom c10State c10Room (fun _ => Except.error (RemoteError.js "boom"))
      = ⟨PResult.resolved false, c10State, 1⟩ :=
  c10_leave_behavior c10State c10Group c10Room
    (fun _ => Except.ok ()) (fun _ => Except.error (RemoteError.js "boom"))
    (fun _ => Except.ok ()) (fun _ => Except.error (RemoteError.js "boom"))
    (RemoteError.js "boom") (RemoteError.js "boom")
    (by decide) rfl rfl rfl rfl

end JslineApi
